import Mathlib

/-!
Shallow embedding of `src/src/startup.cpp` of the ucxxrt repository and proofs
about it. Function pointers are modelled as `Option Nat` (`none` is the null
pointer, `some n` an opaque non-null callback); the two file-scope registry
heads are modelled as the chains of callbacks reachable from them via the
records' `_next` links. Walkers return the sequence of invocations they
perform, in order, so that ordering claims can be stated about them.
-/

namespace Ucxxrt

/-- A `_PVFV` / `onexit_t` function pointer: `none` models the null pointer,
`some n` an opaque non-null zero-argument callback. -/
abbrev FnPtr := Option Nat

/-- A `_PIFV` table entry for `_initterm_e`: `none` models a null pointer;
`some (f, r)` models the non-null function with identity `f` whose call
returns the status `r`. -/
abbrev IFnEntry := Option (Nat × Int)

/-- The two file-scope registry heads of `startup.cpp` (lines 142-143),
`s_onexit_table` and `s_quick_onexit_table`, each modelled as the list of
callbacks stored in the records reachable from the head by following `_next`
links (`[]` models a null head). -/
structure CrtState where
  s_onexit_table : List FnPtr
  s_quick_onexit_table : List FnPtr
deriving Repr, DecidableEq

/-- Both statics are zero-initialized, i.e. both heads are null at module
start. -/
def initState : CrtState := { s_onexit_table := [], s_quick_onexit_table := [] }

/-- The process-wide pool policy globals `ucxxrt::DefaultPoolType` and
`ucxxrt::DefaultMdlProtection` (declared extern at lines 67-70). -/
structure PoolPolicy where
  DefaultPoolType : Nat
  DefaultMdlProtection : Nat
deriving Repr, DecidableEq

/-- The Windows `POOL_TYPE::NonPagedPool` enumerator (value 0). -/
def NonPagedPool : Nat := 0

/-- Embedding of `_initialize_pool` (startup.cpp lines 72-88). `ver` is the
outcome of the external `RtlGetVersion` query: `none` when `NT_SUCCESS` is
false (the function returns at once), `some (major, minor)` on success with
`dwMajorVersion = major` and `dwMinorVersion = minor`. -/
def _initialize_pool (ver : Option (Nat × Nat)) (p : PoolPolicy) : PoolPolicy :=
  match ver with
  | none => p
  | some (major, minor) =>
      if major < 6 ∨ (major = 6 ∧ minor < 2) then
        { DefaultPoolType := NonPagedPool, DefaultMdlProtection := 0 }
      else
        p

/-- Embedding of `_initterm` (lines 92-101): the result is the sequence of
invoked entries in invocation order; a null entry is skipped by `continue`. -/
def _initterm : List FnPtr → List Nat
  | [] => []
  | none :: rest => _initterm rest
  | some f :: rest => f :: _initterm rest

/-- Embedding of `_initterm_e` (lines 111-124): the first component is the
sequence of invoked entries (their identities) in invocation order, the
second the returned `int`. A null entry is skipped; a non-null entry is
invoked, and if its result is nonzero the loop returns it immediately. -/
def _initterm_e : List IFnEntry → List Nat × Int
  | [] => ([], 0)
  | none :: rest => _initterm_e rest
  | some (f, r) :: rest =>
      if r ≠ 0 then ([f], r)
      else
        let t := _initterm_e rest
        (f :: t.fst, t.snd)

/-- Embedding of `_register_onexit_function` (lines 145-155). `allocOk`
models whether `new onexit_entry(table, function)` yields a record (the code
compares the result against null and returns -1 when it is null). The new
record's `_next` link is the chain passed as `table`, and the store on
line 152 always writes the global `s_onexit_table`, whichever table was
passed in. -/
def _register_onexit_function (s : CrtState) (table : List FnPtr) (function : FnPtr)
    (allocOk : Bool) : Int × CrtState :=
  if allocOk then
    (0, { s with s_onexit_table := function :: table })
  else
    (-1, s)

/-- Embedding of `_execute_onexit_table` (lines 157-167): walks the chain
passed as `table` from its head, and for each record saves `_next`, then
`delete`s the record — which runs `~onexit_entry`, i.e. calls the stored
`_destructor` unconditionally — and moves on; finally returns 0. The first
component is the sequence of destructor invocations in order. The function
writes neither head global; the deallocation of the records has no further
model. -/
def _execute_onexit_table : List FnPtr → List FnPtr × Int
  | [] => ([], 0)
  | f :: rest =>
      let t := _execute_onexit_table rest
      (f :: t.fst, t.snd)

/-- Embedding of `atexit` (lines 169-172): registers against the current
normal-exit head. -/
def atexit (s : CrtState) (function : FnPtr) (allocOk : Bool) : Int × CrtState :=
  _register_onexit_function s s.s_onexit_table function allocOk

/-- Embedding of `at_quick_exit` (lines 174-177): passes the quick-exit head
as the `table` argument of `_register_onexit_function`. -/
def at_quick_exit (s : CrtState) (function : FnPtr) (allocOk : Bool) : Int × CrtState :=
  _register_onexit_function s s.s_quick_onexit_table function allocOk

/-- Embedding of `onexit` (lines 179-184): delegates to `atexit` and maps the
status to the callback pointer on success, null on failure. -/
def onexit (s : CrtState) (function : FnPtr) (allocOk : Bool) : FnPtr × CrtState :=
  let t := atexit s function allocOk
  (if t.fst = 0 then function else none, t.snd)

/-- Embedding of `_onexit` (lines 186-189): forwards to `onexit`. -/
def _onexit (s : CrtState) (function : FnPtr) (allocOk : Bool) : FnPtr × CrtState :=
  onexit s function allocOk

/-- The public operations of the file that can touch the registry heads. -/
inductive Op where
  | regNormal (f : FnPtr) (allocOk : Bool)
  | regQuick (f : FnPtr) (allocOk : Bool)
  | regOnexit (f : FnPtr) (allocOk : Bool)
  | drainNormal
  | drainQuick
deriving Repr, DecidableEq

/-- State effect of one public operation. Draining frees records but writes
neither head global, so `_execute_onexit_table` leaves the state unchanged. -/
def step (s : CrtState) : Op → CrtState
  | .regNormal f ok => (atexit s f ok).snd
  | .regQuick f ok => (at_quick_exit s f ok).snd
  | .regOnexit f ok => (onexit s f ok).snd
  | .drainNormal => s
  | .drainQuick => s

/-- Registry state after a sequence of public operations from module start. -/
def run (ops : List Op) : CrtState := ops.foldl step initState

/-! Helper lemmas about the walkers and the step relation. -/

theorem execute_onexit_trace (l : List FnPtr) : (_execute_onexit_table l).fst = l := by
  induction l with
  | nil => rfl
  | cons f rest ih => simp [_execute_onexit_table, ih]

theorem execute_onexit_status (l : List FnPtr) : (_execute_onexit_table l).snd = 0 := by
  induction l with
  | nil => rfl
  | cons f rest ih => simp [_execute_onexit_table, ih]

theorem initterm_eq_filterMap (l : List FnPtr) : _initterm l = l.filterMap id := by
  induction l with
  | nil => rfl
  | cons e rest ih => cases e <;> simp [_initterm, ih]

theorem step_preserves_quick (s : CrtState) (op : Op) :
    (step s op).s_quick_onexit_table = s.s_quick_onexit_table := by
  cases op with
  | regNormal f ok =>
      cases ok <;> simp [step, atexit, _register_onexit_function]
  | regQuick f ok =>
      cases ok <;> simp [step, at_quick_exit, _register_onexit_function]
  | regOnexit f ok =>
      cases ok <;> simp [step, onexit, atexit, _register_onexit_function]
  | drainNormal => rfl
  | drainQuick => rfl

theorem run_quick_empty (ops : List Op) : (run ops).s_quick_onexit_table = [] := by
  suffices h : ∀ s : CrtState, s.s_quick_onexit_table = [] →
      (ops.foldl step s).s_quick_onexit_table = [] from h initState rfl
  induction ops with
  | nil => intro s hs; exact hs
  | cons op rest ih =>
      intro s hs
      exact ih (step s op) ((step_preserves_quick s op).trans hs)

theorem initterm_e_all_zero (l : List IFnEntry)
    (h : ∀ q ∈ l.filterMap id, q.snd = 0) :
    _initterm_e l = ((l.filterMap id).map Prod.fst, 0) := by
  induction l with
  | nil => rfl
  | cons e rest ih =>
      cases e with
      | none =>
          simpa [_initterm_e] using ih (by simpa using h)
      | some q =>
          obtain ⟨f, r⟩ := q
          have hr : r = 0 := h (f, r) (by simp)
          have hrest : ∀ q ∈ rest.filterMap id, q.snd = 0 := by
            intro q hq
            exact h q (by simp [hq])
          simp [_initterm_e, hr, ih hrest]

theorem initterm_e_first_nonzero (l : List IFnEntry) (pre : List (Nat × Int))
    (p : Nat × Int) (suf : List (Nat × Int))
    (hdec : l.filterMap id = pre ++ p :: suf)
    (hpre : ∀ q ∈ pre, q.snd = 0) (hp : p.snd ≠ 0) :
    _initterm_e l = (pre.map Prod.fst ++ [p.fst], p.snd) := by
  induction l generalizing pre with
  | nil => simp at hdec
  | cons e rest ih =>
      cases e with
      | none =>
          exact ih pre (by simpa using hdec) hpre
      | some q =>
          have hdec : q :: rest.filterMap id = pre ++ p :: suf := by
            simpa using hdec
          cases pre with
          | nil =>
              simp only [List.nil_append] at hdec
              have hq : q = p := (List.cons_eq_cons.mp hdec).1
              subst hq
              obtain ⟨f, r⟩ := q
              simp only [_initterm_e]
              rw [if_pos hp]
              rfl
          | cons q0 pre' =>
              simp only [List.cons_append] at hdec
              have hq : q = q0 := (List.cons_eq_cons.mp hdec).1
              have hrest : rest.filterMap id = pre' ++ p :: suf :=
                (List.cons_eq_cons.mp hdec).2
              have hq0 : q.snd = 0 := hq ▸ hpre q0 (by simp)
              have hpre' : ∀ x ∈ pre', x.snd = 0 := fun x hx => hpre x (by simp [hx])
              obtain ⟨f, r⟩ := q
              have hr : r = 0 := hq0
              simp only [_initterm_e, hr]
              simp [ih pre' hrest hpre', ← hq]

/-! The claim theorems. -/

/-- C1: registrations via `atexit` drain in strict LIFO order (here callbacks
1, 2, 3 drain as 3, 2, 1), but the second half of the claim fails on the code:
`_execute_onexit_table` never clears `s_onexit_table`, so after a drain the
head still holds the freed chain; registering callback 4 links it on top of
the freed records, and the second drain walks 4, 3, 2, 1 rather than
invoking only 4. -/
theorem c1_second_drain_not_only_c4 :
    (_execute_onexit_table (run [Op.regNormal (some 1) true, Op.regNormal (some 2) true,
        Op.regNormal (some 3) true]).s_onexit_table).fst = [some 3, some 2, some 1] ∧
    (_execute_onexit_table (run [Op.regNormal (some 1) true, Op.regNormal (some 2) true,
        Op.regNormal (some 3) true, Op.drainNormal, Op.regNormal (some 4) true]).s_onexit_table).fst
      = [some 4, some 3, some 2, some 1] := by
  decide

/-- C2: `_initterm_e` fail-fast behaviour. If the non-null entries of the
range decompose as `pre ++ p :: suf` with every entry of `pre` returning 0
and `p` returning a nonzero status (so `p` is the first failing invocable
entry, at non-null index `pre.length`), then exactly the entries of `pre`
followed by `p` are invoked, in ascending order, and `p`'s status is
returned; no entry of `suf` is invoked. If every non-null entry returns 0,
every non-null entry is invoked in order and 0 is returned. -/
theorem c2_initterm_e_fail_fast (l : List IFnEntry) (pre : List (Nat × Int))
    (p : Nat × Int) (suf : List (Nat × Int))
    (hdec : l.filterMap id = pre ++ p :: suf)
    (hpre : ∀ q ∈ pre, q.snd = 0) (hp : p.snd ≠ 0) :
    _initterm_e l = (pre.map Prod.fst ++ [p.fst], p.snd) ∧
    ∀ l2 : List IFnEntry, (∀ q ∈ l2.filterMap id, q.snd = 0) →
      _initterm_e l2 = ((l2.filterMap id).map Prod.fst, 0) := by
  exact ⟨initterm_e_first_nonzero l pre p suf hdec hpre hp,
    fun l2 h2 => initterm_e_all_zero l2 h2⟩

/-- C2 witness: in the range `[entry 0 returning 0, null, entry 1 returning 5,
entry 2 returning 7]`, entries 0 and 1 are invoked, 5 is returned, and in an
all-zero range every non-null entry is invoked and 0 returned. -/
theorem c2_initterm_e_fail_fast_witness :
    _initterm_e [some (0, 0), none, some (1, 5), some (2, 7)] = ([0, 1], 5) ∧
    _initterm_e [some (0, 0), none, some (1, 0)] = ([0, 1], 0) := by
  have h := c2_initterm_e_fail_fast [some (0, 0), none, some (1, 5), some (2, 7)]
    [(0, 0)] (1, 5) [(2, 7)] (by decide) (by decide) (by decide)
  exact ⟨h.1, h.2 [some (0, 0), none, some (1, 0)] (by decide)⟩

/-- C3: the claim fails on the code. On the fresh state (both heads null),
`at_quick_exit` with a succeeding allocation returns success, but the new
record is stored at the NORMAL-exit head (`s_onexit_table`, which the claim
says must stay unchanged), while the quick-exit head is never written and
stays null (the claim says it must receive the record): line 152 of
`_register_onexit_function` writes the global `s_onexit_table` regardless of
the table passed. -/
theorem c3_quick_exit_writes_normal_head :
    (at_quick_exit initState (some 1) true).fst = 0 ∧
    (at_quick_exit initState (some 1) true).snd.s_onexit_table = [some 1] ∧
    (at_quick_exit initState (some 1) true).snd.s_quick_onexit_table = [] := by
  decide

/-- C4: the claim fails on the code. After registering callback 1 and
draining, the drain has invoked the callback (trace `[some 1]`) but the
normal-exit head is NOT empty: `_execute_onexit_table` receives the table by
value and writes neither global, so the head still holds the freed record,
and a second drain walks it and performs an invocation again instead of
being a no-op. -/
theorem c4_drain_head_not_cleared :
    (_execute_onexit_table (run [Op.regNormal (some 1) true]).s_onexit_table).fst = [some 1] ∧
    (run [Op.regNormal (some 1) true, Op.drainNormal]).s_onexit_table = [some 1] ∧
    (_execute_onexit_table
        (run [Op.regNormal (some 1) true, Op.drainNormal]).s_onexit_table).fst = [some 1] := by
  decide

/-- C5: when record allocation fails, `_register_onexit_function` returns -1
and leaves the whole registry state unchanged, and a callback that is on
neither chain is not invoked by a subsequent drain of either head. -/
theorem c5_register_alloc_failure (s : CrtState) (table : List FnPtr) (f : FnPtr)
    (h1 : f ∉ s.s_onexit_table) (h2 : f ∉ s.s_quick_onexit_table) :
    _register_onexit_function s table f false = (-1, s) ∧
    f ∉ (_execute_onexit_table s.s_onexit_table).fst ∧
    f ∉ (_execute_onexit_table s.s_quick_onexit_table).fst := by
  refine ⟨rfl, ?_, ?_⟩
  · rw [execute_onexit_trace]; exact h1
  · rw [execute_onexit_trace]; exact h2

/-- C5 witness: a failed registration of callback 1 on the fresh state
returns -1, changes nothing, and callback 1 is absent from both drains. -/
theorem c5_register_alloc_failure_witness :
    _register_onexit_function initState [] (some 1) false = (-1, initState) ∧
    some 1 ∉ (_execute_onexit_table initState.s_onexit_table).fst ∧
    some 1 ∉ (_execute_onexit_table initState.s_quick_onexit_table).fst :=
  c5_register_alloc_failure initState [] (some 1) (by decide) (by decide)

/-- C6: `_initialize_pool` keeps both policy values when the version query
fails; when it succeeds below the threshold (major < 6, or major = 6 and
minor < 2) it sets the pool type to `NonPagedPool` and the MDL protection to
0; at or above the threshold it keeps both values. -/
theorem c6_initialize_pool_policy (p : PoolPolicy) (major minor : Nat) :
    _initialize_pool none p = p ∧
    (major < 6 ∨ (major = 6 ∧ minor < 2) →
      _initialize_pool (some (major, minor)) p =
        { DefaultPoolType := NonPagedPool, DefaultMdlProtection := 0 }) ∧
    (¬(major < 6 ∨ (major = 6 ∧ minor < 2)) →
      _initialize_pool (some (major, minor)) p = p) := by
  refine ⟨rfl, ?_, ?_⟩ <;> intro h <;> simp [_initialize_pool, h]

/-- C6 witness: with defaults (7, 3), version (6, 1) forces non-paged pool
and zero MDL protection, while versions (6, 2) and (10, 0) and a failed
query keep the defaults. -/
theorem c6_initialize_pool_policy_witness :
    _initialize_pool (some (6, 1)) ⟨7, 3⟩ = ⟨NonPagedPool, 0⟩ ∧
    _initialize_pool (some (6, 2)) ⟨7, 3⟩ = ⟨7, 3⟩ ∧
    _initialize_pool (some (10, 0)) ⟨7, 3⟩ = ⟨7, 3⟩ ∧
    _initialize_pool none ⟨7, 3⟩ = ⟨7, 3⟩ :=
  ⟨(c6_initialize_pool_policy ⟨7, 3⟩ 6 1).2.1 (by decide),
   (c6_initialize_pool_policy ⟨7, 3⟩ 6 2).2.2 (by decide),
   (c6_initialize_pool_policy ⟨7, 3⟩ 10 0).2.2 (by decide),
   (c6_initialize_pool_policy ⟨7, 3⟩ 0 0).1⟩

/-- C7: `_initterm` invokes exactly the non-null entries of the range, in
ascending index order with no early exit (its invocation trace is the
`filterMap` of the range, so null entries are never invoked); an empty or
all-null range produces zero invocations. -/
theorem c7_initterm_runs_all (l : List FnPtr) :
    _initterm l = l.filterMap id ∧
    _initterm ([] : List FnPtr) = [] ∧
    ((∀ e ∈ l, e = none) → _initterm l = []) := by
  refine ⟨initterm_eq_filterMap l, rfl, ?_⟩
  intro h
  rw [initterm_eq_filterMap]
  induction l with
  | nil => rfl
  | cons e rest ih =>
      have he : e = none := h e (by simp)
      subst he
      simpa using ih fun x hx => h x (by simp [hx])

/-- C7 witness: a range of two null entries and one non-null entry invokes
only the non-null one, and an all-null range invokes nothing. -/
theorem c7_initterm_runs_all_witness :
    _initterm [none, some 5, none] = [5] ∧ _initterm [none, none] = [] :=
  ⟨(c7_initterm_runs_all [none, some 5, none]).1,
   (c7_initterm_runs_all [none, none]).2.2 (by decide)⟩

/-- C8: `_onexit` forwards to `onexit`, which delegates to `atexit` (same
final registry state) and returns the callback pointer itself exactly when
`atexit` reports success (status 0), and null otherwise; with a succeeding
allocation it returns the callback, with a failing one it returns null. -/
theorem c8_onexit_wrappers (s : CrtState) (f : FnPtr) (allocOk : Bool) :
    _onexit s f allocOk = onexit s f allocOk ∧
    (onexit s f allocOk).snd = (atexit s f allocOk).snd ∧
    (onexit s f allocOk).fst = (if (atexit s f allocOk).fst = 0 then f else none) ∧
    (onexit s f true).fst = f ∧
    (onexit s f false).fst = none := by
  refine ⟨rfl, rfl, rfl, ?_, rfl⟩
  simp [onexit, atexit, _register_onexit_function]

/-- C9: after any sequence of public operations that leaves the normal-exit
chain non-empty, the quick-exit head is still null (no operation ever writes
it), so a successful `at_quick_exit` installs at the normal-exit head a
record whose next link is null: the new normal chain is just `[f]`, every
previously registered normal-exit callback is unreachable from either head,
and draining the normal-exit slot invokes only the quick-exit callback. -/
theorem c9_quick_exit_orphans_normal_chain (ops : List Op) (f : FnPtr)
    (hne : (run ops).s_onexit_table ≠ []) :
    (at_quick_exit (run ops) f true).fst = 0 ∧
    (at_quick_exit (run ops) f true).snd.s_onexit_table = [f] ∧
    (at_quick_exit (run ops) f true).snd.s_quick_onexit_table = [] ∧
    (_execute_onexit_table (at_quick_exit (run ops) f true).snd.s_onexit_table).fst = [f] := by
  have hq := run_quick_empty ops
  refine ⟨rfl, ?_, ?_, ?_⟩
  · simp [at_quick_exit, _register_onexit_function, hq]
  · simp [at_quick_exit, _register_onexit_function, hq]
  · rw [execute_onexit_trace]
    simp [at_quick_exit, _register_onexit_function, hq]

/-- C9 witness: after registering callback 1 at normal exit, a quick-exit
registration of callback 2 leaves the normal chain as exactly `[some 2]`,
the quick head null, and the normal drain invoking only callback 2. -/
theorem c9_quick_exit_orphans_normal_chain_witness :
    (at_quick_exit (run [Op.regNormal (some 1) true]) (some 2) true).fst = 0 ∧
    (at_quick_exit (run [Op.regNormal (some 1) true]) (some 2) true).snd.s_onexit_table
      = [some 2] ∧
    (at_quick_exit (run [Op.regNormal (some 1) true]) (some 2) true).snd.s_quick_onexit_table
      = [] ∧
    (_execute_onexit_table (at_quick_exit (run [Op.regNormal (some 1) true]) (some 2)
        true).snd.s_onexit_table).fst = [some 2] :=
  c9_quick_exit_orphans_normal_chain [Op.regNormal (some 1) true] (some 2) (by decide)

/-- C10: `atexit` does not validate the callback: registering the null
pointer succeeds and stores a record holding null at the head; the drain
invokes every stored callback unconditionally (its trace is the whole
chain), so a null callback in the chain is invoked (a null-pointer call),
and the drain performs no null invocation when no stored callback is null. -/
theorem c10_no_null_validation (s : CrtState) (chain : List FnPtr) :
    (atexit s none true).fst = 0 ∧
    (atexit s none true).snd.s_onexit_table = none :: s.s_onexit_table ∧
    (_execute_onexit_table chain).fst = chain ∧
    (none ∈ chain → none ∈ (_execute_onexit_table chain).fst) ∧
    (none ∉ chain → none ∉ (_execute_onexit_table chain).fst) := by
  refine ⟨rfl, rfl, execute_onexit_trace chain, ?_, ?_⟩
  · rw [execute_onexit_trace]; exact id
  · rw [execute_onexit_trace]; exact id

/-- C10 witness: `atexit` of the null pointer succeeds on the fresh state; a
chain holding a null callback drains with a null invocation, and an all
non-null chain drains without one. -/
theorem c10_no_null_validation_witness :
    (atexit initState none true).fst = 0 ∧
    none ∈ (_execute_onexit_table [some 1, none]).fst ∧
    none ∉ (_execute_onexit_table [some 1]).fst :=
  ⟨(c10_no_null_validation initState []).1,
   (c10_no_null_validation initState [some 1, none]).2.2.2.1 (by decide),
   (c10_no_null_validation initState [some 1]).2.2.2.2 (by decide)⟩

end Ucxxrt
